import Mathlib

/-!
# Verification of the celm-backend token lifecycle and registration wizard

Shallow embedding, in Lean 4, of the parts of the `Muhadev/celm-backend`
TypeScript repository that govern the authentication-token lifecycle
(`src/services/AuthService.ts`, `src/database/redis.ts`, and the parallel
implementation in the `auth/` tree) and the multi-step registration wizard
(`src/auth/controllers/RegistrationController.ts` and the
`RegistrationSession` model).

Conventions used throughout:
* JavaScript runtime errors and `AppError` subclasses are modelled by `JsErr`;
  `AppError` carries its HTTP status code (`BadRequestError` and
  `ValidationError` are 400, `UnauthorizedError` is 401, as defined in the
  source's error classes and its `errorHandler`), while a runtime `TypeError`
  (from a `!` non-null assertion on `undefined`) is surfaced by the
  `errorHandler` as a 500.
* Asynchronous calls are sequentialised; external collaborators
  (JWT verification, the users table, randomness, sha256) are passed in as
  explicit oracle arguments, so every definition is executable.
* JavaScript string truthiness (`''` is falsy) is modelled by comparison
  with the empty string.
-/

/-- JavaScript-level failure: an `AppError` (with its HTTP status code) or a
runtime `TypeError` (e.g. reading a property of `undefined`). -/
inductive JsErr where
  | appError (status : Nat) (msg : String)
  | typeError (msg : String)
deriving Repr, DecidableEq

namespace JsErr

/-- The HTTP status the source's `errorHandler` middleware assigns to an
error: `AppError`s keep their own status, anything else becomes 500. -/
def httpStatus : JsErr → Nat
  | appError s _ => s
  | typeError _ => 500

/-- An error the caller sees as `BadRequest` (status 400). -/
def isBadRequest : JsErr → Bool
  | appError 400 _ => true
  | _ => false

/-- An error the caller sees as `Unauthorized` (status 401). -/
def isUnauthorized : JsErr → Bool
  | appError 401 _ => true
  | _ => false

end JsErr

/-! ## Redis store (`src/database/redis.ts`)

`RedisService.set` with a TTL stores a string value under a string key;
`RedisService.get` returns the value or `null`; `RedisService.del key`
deletes exactly the given literal key (the Redis `DEL` command performs no
glob expansion on `*`). The store is modelled as an association list of
entries. -/

/-- One persisted Redis entry: key, value, and the TTL (in seconds) it was
set with, if any. -/
structure RedisEntry where
  key : String
  value : String
  ttl : Option Nat
deriving Repr, DecidableEq

/-- The Redis key-value store. -/
abbrev RedisStore := List RedisEntry

/-- `RedisService.get`: value stored under a key, or `none`. -/
def redisGet (st : RedisStore) (k : String) : Option String :=
  (st.find? (fun e => e.key = k)).map (·.value)

/-- `RedisService.set` with a TTL: overwrite any entry under the key. -/
def redisSet (st : RedisStore) (k v : String) (ttl : Option Nat) : RedisStore :=
  ⟨k, v, ttl⟩ :: st.filter (fun e => e.key ≠ k)

/-- `RedisService.del`: removes exactly the literal key `k` (no pattern
expansion). -/
def redisDel (st : RedisStore) (k : String) : RedisStore :=
  st.filter (fun e => e.key ≠ k)

/-! ## The Redis-variant `AuthService` (`src/services/AuthService.ts`) -/

/-- The JWT claims carried by this variant's tokens
(`interface TokenPayload`). -/
structure TokenPayload where
  userId : String
  email : String
  role : String
deriving Repr, DecidableEq

/-- A user row as the Redis-variant `AuthService` sees it (`models/User.ts`):
only the fields this service reads or writes are kept. -/
structure UserRow where
  id : String
  email : String
  password : String
  status : String               -- 'pending' / 'active' / ...
  passwordResetToken : Option String
  passwordResetExpires : Option Nat
deriving Repr, DecidableEq

/-- External collaborators of `AuthService.refreshTokens`:
`jwt.verify(token, config.jwt.refreshSecret)` (returns the payload when the
signature and expiry verify, and `none` when verification throws) and
`User.findById`. -/
structure AuthEnv where
  verifyRefresh : String → Option TokenPayload
  findById : String → Option UserRow

/-- `AuthService.storeRefreshToken`: persists the key
`refresh_token:{userId}:{refreshToken}` with value `'valid'` and a TTL of
7 days (in seconds). The raw refresh token is embedded in the key. -/
def storeRefreshToken (st : RedisStore) (userId refreshToken : String) : RedisStore :=
  redisSet st ("refresh_token:" ++ userId ++ ":" ++ refreshToken) "valid"
    (some (7 * 24 * 60 * 60))

/-- `AuthService.revokeRefreshToken`: deletes that same literal key. -/
def revokeRefreshToken (st : RedisStore) (userId refreshToken : String) : RedisStore :=
  redisDel st ("refresh_token:" ++ userId ++ ":" ++ refreshToken)

/-- `AuthService.refreshTokens`, translated line by line.

`mint` is the access/refresh pair `generateTokens` signs on this call
(an oracle for `jwt.sign`).

The source wraps the body in `try { ... } catch { throw AppError('Invalid
refresh token', 401) }`, and the Redis liveness check sits in an *inner*
`try { const storedToken = await redisService.get(...); if (!storedToken)
throw new AppError('Invalid refresh token', 401); } catch (error)
{ logger.warn(...) }`. `RedisService.get` itself never throws (it catches
internally and returns `null`), so the only throw inside that inner `try`
is the `AppError` raised when the stored record is missing — and the inner
`catch` swallows it and merely logs. Both branches of the check therefore
continue into token issuance, which the `match` below reproduces
faithfully. -/
def refreshTokens (env : AuthEnv) (st : RedisStore) (refreshToken : String)
    (mint : String × String) : Except JsErr (String × String) × RedisStore :=
  match env.verifyRefresh refreshToken with
  | none => (.error (.appError 401 "Invalid refresh token"), st)
  | some payload =>
    -- inner try/catch: the `if (!storedToken) throw` is caught by the inner
    -- `catch` and only logged, so execution continues either way.
    match redisGet st ("refresh_token:" ++ payload.userId ++ ":" ++ refreshToken) with
    | none =>      -- AppError('Invalid refresh token', 401) thrown, then swallowed
      (continueRefresh env st refreshToken payload mint)
    | some _ =>    -- stored token found, check passes
      (continueRefresh env st refreshToken payload mint)
where
  /-- The tail of `refreshTokens` after the (ineffective) Redis check:
  user lookup, token minting, rotation of the stored record. -/
  continueRefresh (env : AuthEnv) (st : RedisStore) (refreshToken : String)
      (payload : TokenPayload) (mint : String × String) :
      Except JsErr (String × String) × RedisStore :=
    match env.findById payload.userId with
    | none => (.error (.appError 401 "Invalid refresh token"), st)
    | some user =>
      if user.status ≠ "active" then
        (.error (.appError 401 "Invalid refresh token"), st)
      else
        let st₁ := revokeRefreshToken st payload.userId refreshToken
        let st₂ := storeRefreshToken st₁ payload.userId mint.2
        (.ok mint, st₂)

/-- `AuthService.requestPasswordReset`: looks up the user by email; when
absent, returns silently (no token is produced, nothing persisted). When
present, generates a reset token (`resetToken` is the `crypto.randomBytes`
oracle draw), stores it **raw** in `user.passwordResetToken` together with
an expiry of now + 10 minutes, and saves the user. Returns the updated user
row, if any (the caller-visible return type is `Promise<void>`). -/
def requestPasswordReset (findByEmail : String → Option UserRow)
    (email resetToken : String) (now : Nat) :
    Except JsErr Unit × Option UserRow :=
  match findByEmail email with
  | none => (.ok (), none)          -- don't reveal if email exists; no persistence
  | some user =>
    let user' : UserRow :=
      { user with
        passwordResetToken := some resetToken,
        passwordResetExpires := some (now + 10 * 60 * 1000) }
    (.ok (), some user')

/-- `User.findByPasswordResetToken` as used by the Redis-variant
`AuthService.resetPassword`: matches the stored `password_reset_token`
column against the presented token **as is** and requires the expiry to lie
in the future. -/
def findByPasswordResetToken (users : List UserRow) (token : String) (now : Nat) :
    Option UserRow :=
  users.find? (fun u =>
    u.passwordResetToken = some token &&
    match u.passwordResetExpires with
    | some t => decide (now < t)
    | none => false)

/-- `AuthService.resetPassword`: looks up the user by reset token, updates
the password (hashing is external — `hashPwd` oracle), clears the reset
fields, and then attempts to revoke all refresh tokens by calling
`redisService.del('refresh_tokens:' + user.id + ':*')` — a **literal** key
(with the `refresh_tokens:` prefix and a `*` character), which is not the
key shape `refresh_token:{id}:{token}` that `storeRefreshToken` writes.
Returns the result, the updated user (if found) and the Redis store. -/
def resetPassword (users : List UserRow) (st : RedisStore)
    (token newPassword : String) (hashPwd : String → String) (now : Nat) :
    Except JsErr Unit × Option UserRow × RedisStore :=
  match findByPasswordResetToken users token now with
  | none => (.error (.appError 400 "Invalid or expired password reset token"), none, st)
  | some user =>
    let user' : UserRow :=
      { user with
        password := hashPwd newPassword,
        passwordResetToken := none,
        passwordResetExpires := none }
    let st' := redisDel st ("refresh_tokens:" ++ user.id ++ ":*")
    (.ok (), some user', st')

/-! ## Registration wizard data model
(`src/auth/types/auth.ts` — enums and step payload interfaces — and the
`RegistrationSession` model). Steps are the numeric values of
`enum RegistrationStep`: EMAIL_INPUT = 1, PERSONAL_INFO = 2,
BUSINESS_TYPE = 3, SHOP_DETAILS = 4, LOCATION = 5, COMPLETE = 6. -/

def EMAIL_INPUT : Nat := 1
def PERSONAL_INFO : Nat := 2
def BUSINESS_TYPE : Nat := 3
def SHOP_DETAILS : Nat := 4
def LOCATION : Nat := 5

/-- `EmailStepData`: stored as `step1` (`{ email, isOAuth }`). -/
structure EmailStepData where
  email : String
  isOAuth : Bool
deriving Repr, DecidableEq

/-- `PersonalInfoStepData`: stored as `step2`; `password` is optional
(absent for OAuth sessions). -/
structure PersonalInfoStepData where
  firstName : String
  lastName : String
  password : Option String
deriving Repr, DecidableEq

/-- `BusinessTypeStepData`: stored as `step3`. -/
structure BusinessTypeStepData where
  businessType : String
deriving Repr, DecidableEq

/-- `ShopDetailsStepData`: stored as `step4`; `shopUrl` is filled in by the
controller before storing. -/
structure ShopDetailsStepData where
  businessName : String
  businessDescription : String
  shopUrl : String
deriving Repr, DecidableEq

/-- `LocationStepData`: stored as `step5`. -/
structure LocationStepData where
  country : String
  state : String
  localGovernment : String
  address : String
deriving Repr, DecidableEq

/-- `RegistrationStepData`: the per-step payload bag (`step1` … `step5`,
each optional). -/
structure StepData where
  step1 : Option EmailStepData := none
  step2 : Option PersonalInfoStepData := none
  step3 : Option BusinessTypeStepData := none
  step4 : Option ShopDetailsStepData := none
  step5 : Option LocationStepData := none
deriving Repr, DecidableEq

/-- A step payload as passed dynamically to `updateStep`. Every call site in
the source passes the payload shape matching the step number it submits. -/
inductive StepPayload where
  | p1 (d : EmailStepData)
  | p2 (d : PersonalInfoStepData)
  | p3 (d : BusinessTypeStepData)
  | p4 (d : ShopDetailsStepData)
  | p5 (d : LocationStepData)
deriving Repr, DecidableEq

/-- The `RegistrationSession` record (model class in the source; timestamps
are milliseconds). -/
structure Session where
  id : String
  email : String
  sessionToken : String
  stepData : StepData
  currentStep : Nat
  totalSteps : Nat := 5
  emailVerified : Bool
  verificationToken : Option String
  oauthProvider : Option String := none
  oauthId : Option String := none
  expiresAt : Nat
  createdAt : Nat
  updatedAt : Nat
deriving Repr, DecidableEq

/-- JS truthiness of a string: `''` is falsy. -/
def truthy (s : String) : Bool := s ≠ ""

/-- JS truthiness of an optional string (`undefined`/`null` and `''` falsy). -/
def truthyOpt : Option String → Bool
  | none => false
  | some s => s ≠ ""

/-- `RegistrationSession.isStepValid`: the per-step validity predicate,
using JS truthiness on each required field (`!!data.field`). -/
def isStepValid (s : Session) (step : Nat) : Bool :=
  if step = EMAIL_INPUT then
    match s.stepData.step1 with
    | none => false
    | some d => truthy d.email
  else if step = PERSONAL_INFO then
    match s.stepData.step2 with
    | none => false
    | some d =>
      truthy d.firstName && truthy d.lastName &&
        (truthyOpt d.password || truthyOpt s.oauthProvider)
  else if step = BUSINESS_TYPE then
    match s.stepData.step3 with
    | none => false
    | some d => truthy d.businessType
  else if step = SHOP_DETAILS then
    match s.stepData.step4 with
    | none => false
    | some d => truthy d.businessName && truthy d.businessDescription && truthy d.shopUrl
  else if step = LOCATION then
    match s.stepData.step5 with
    | none => false
    | some d =>
      truthy d.country && truthy d.state && truthy d.localGovernment && truthy d.address
  else false

/-- `RegistrationSession.isComplete`: all steps `1 .. totalSteps` valid. -/
def Session.isComplete (s : Session) : Bool :=
  (List.range s.totalSteps).all (fun i => isStepValid s (i + 1))

/-- Writing a payload into the slot named `step${step}` of the payload bag.
The typed model can only represent the writes the source actually performs
(payload shape matching the step number); a mismatched dynamic write, which
no call site performs, leaves the bag unchanged. -/
def writeSlot (sd : StepData) : Nat → StepPayload → StepData
  | 1, .p1 d => { sd with step1 := some d }
  | 2, .p2 d => { sd with step2 := some d }
  | 3, .p3 d => { sd with step3 := some d }
  | 4, .p4 d => { sd with step4 := some d }
  | 5, .p5 d => { sd with step5 := some d }
  | _, _ => sd

/-- `RegistrationSession.updateStep`: stores the payload under the submitted
step number and sets `currentStep` to that step. -/
def updateStep (s : Session) (step : Nat) (data : StepPayload) (now : Nat) : Session :=
  { s with
    stepData := writeSlot s.stepData step data,
    currentStep := step,
    updatedAt := now }

/-- `RegistrationSession.nextStep`: advances `currentStep` by one, capped at
`totalSteps`. -/
def nextStep (s : Session) (now : Nat) : Session :=
  if s.currentStep < s.totalSteps then
    { s with currentStep := s.currentStep + 1, updatedAt := now }
  else s

/-- `RegistrationSession.findByToken`: looks up a session by its bearer
token; an expired session is purged and treated as absent. -/
def findByToken (sessions : List Session) (tok : String) (now : Nat) : Option Session :=
  match sessions.find? (fun s => s.sessionToken = tok) with
  | none => none
  | some s => if s.expiresAt < now then none else some s

/-! ## Joi validation schemas (`RegistrationController.ts`, top of file) -/

/-- `Joi.string().min(lo).max(hi).required()` on a present string field.
(String lengths here are counted in characters; all inputs of interest are
ASCII, where this coincides with JavaScript's UTF-16 length.) -/
def joiLen (s : String) (lo hi : Nat) : Bool :=
  lo ≤ s.length && s.length ≤ hi

def isLowerAz (c : Char) : Bool := 'a' ≤ c && c ≤ 'z'
def isUpperAz (c : Char) : Bool := 'A' ≤ c && c ≤ 'Z'
def isDigit09 (c : Char) : Bool := '0' ≤ c && c ≤ '9'
def isPwSpecial (c : Char) : Bool :=
  c = '@' || c = '$' || c = '!' || c = '%' || c = '*' || c = '?' || c = '&'
def inPwClass (c : Char) : Bool :=
  isLowerAz c || isUpperAz c || isDigit09 c || isPwSpecial c

/-- The password pattern
`^(?=.*[a-z])(?=.*[A-Z])(?=.*\d)(?=.*[@$!%*?&])[A-Za-z\d@$!%*?&]` under
`RegExp.test` semantics: each look-ahead demands one matching character
somewhere in the string, and the body matches the first character. -/
def passwordPattern (s : String) : Bool :=
  s.data.any isLowerAz && s.data.any isUpperAz && s.data.any isDigit09 &&
    s.data.any isPwSpecial &&
    (match s.data with
     | [] => false
     | c :: _ => inPwClass c)

/-- The request body of the personal-info step (password optional). -/
structure PersonalInfoBody where
  firstName : String
  lastName : String
  password : Option String
deriving Repr, DecidableEq

/-- `personalInfoStepSchema.validate(body, { context: { isOAuth } })`:
first/last name 2–50 characters; password min 8 matching the pattern,
required unless the context is OAuth (optional then, but still validated
when present). -/
def personalInfoJoi (isOAuth : Bool) (b : PersonalInfoBody) : Bool :=
  joiLen b.firstName 2 50 && joiLen b.lastName 2 50 &&
    (match b.password with
     | none => isOAuth
     | some pw => 8 ≤ pw.length && passwordPattern pw)

/-- `businessTypeStepSchema`: one of the `BusinessTypeOption` values. -/
def businessTypeJoi (businessType : String) : Bool :=
  businessType = "services" || businessType = "products" || businessType = "both"

/-- The request body of the shop-details step. -/
structure ShopDetailsBody where
  businessName : String
  businessDescription : String
deriving Repr, DecidableEq

/-- `shopDetailsStepSchema`: name 2–100, description 10–500 characters. -/
def shopDetailsJoi (b : ShopDetailsBody) : Bool :=
  joiLen b.businessName 2 100 && joiLen b.businessDescription 10 500

/-- `locationStepSchema`: country/state/localGovernment 2–100,
address 5–255 characters. -/
def locationJoi (b : LocationStepData) : Bool :=
  joiLen b.country 2 100 && joiLen b.state 2 100 &&
    joiLen b.localGovernment 2 100 && joiLen b.address 5 255

/-! ## Shop-handle generation

Two distinct resolvers exist in the source:
* `RegistrationController.generateUniqueShopUrl` (private, used by
  `submitShopDetails`): lower-case, strip characters outside
  `[a-z0-9\s]`, replace whitespace runs with `-`, truncate to 30; then a
  `while` loop that tries the bare slug, then `base-1`, `base-2`, …
  with **no** bound, until `RegistrationSession.isShopUrlAvailable`
  answers true.
* `RegistrationSession.generateUniqueShopUrl` (static model method, not
  called by the wizard): same normalisation but whitespace is **removed**
  and truncation is to 20; tries the bare `…​.celm.com` slug, then numeric
  suffixes `2 … 999`, then appends a random suffix (`< 10000`) without a
  further check. -/

/-- JS whitespace (`\s`) restricted to the ASCII characters that occur in
business names. -/
def isSpaceJs (c : Char) : Bool :=
  c = ' ' || c = '\t' || c = '\n' || c = '\r'

/-- `.replace(/\s+/g, '-')`: each maximal whitespace run becomes one `-`.
`prevSpace` records whether the previous character was part of a run. -/
def collapseSpace (prevSpace : Bool) : List Char → List Char
  | [] => []
  | c :: rest =>
    if isSpaceJs c then
      (if prevSpace then [] else ['-']) ++ collapseSpace true rest
    else c :: collapseSpace false rest

/-- Characters kept by `.replace(/[^a-z0-9\s]/g, '')` (after lower-casing). -/
def keepSlugChar (c : Char) : Bool := isLowerAz c || isDigit09 c || isSpaceJs c

/-- The controller's slug normalisation:
`businessName.toLowerCase().replace(/[^a-z0-9\s]/g, '').replace(/\s+/g, '-').substring(0, 30)`. -/
def slugifyCtrl (businessName : String) : String :=
  (((collapseSpace false ((businessName.data.map Char.toLower).filter keepSlugChar)).take 30).asString)

/-- `RegistrationSession.generateBaseShopUrl`: same, but whitespace runs are
removed (`.replace(/\s+/g, '')`) and truncation is to 20. -/
def generateBaseShopUrl (businessName : String) : String :=
  ((((businessName.data.map Char.toLower).filter keepSlugChar).filter
      (fun c => !isSpaceJs c)).take 20).asString

/-- The `while (!(await isShopUrlAvailable(shopUrl)))` loop of the
controller resolver, with explicit fuel: each unit of fuel is one
availability check, and exhausting the fuel (`none`) witnesses that the
loop was still running after that many checks. `counter` starts at 1. -/
def ctrlUrlLoop (avail : String → Bool) (baseUrl : String) : String → Nat → Nat → Option String
  | _, _, 0 => none
  | shopUrl, counter, fuel + 1 =>
    if avail shopUrl then some shopUrl
    else ctrlUrlLoop avail baseUrl (baseUrl ++ "-" ++ toString counter) (counter + 1) fuel

/-- `RegistrationController.generateUniqueShopUrl` (the resolver the wizard
actually uses). -/
def generateUniqueShopUrlCtrl (avail : String → Bool) (businessName : String)
    (fuel : Nat) : Option String :=
  let baseUrl := slugifyCtrl businessName
  ctrlUrlLoop avail baseUrl baseUrl 1 fuel

/-- The `while (counter <= 999)` loop of the model resolver: candidates
`base2.celm.com` … `base999.celm.com`, checked against the users table
(the same availability oracle). Structural recursion on the number of
counters left. -/
def modelUrlLoop (avail : String → Bool) (baseUrl : String) : Nat → Nat → Option String
  | _, 0 => none
  | counter, left + 1 =>
    if counter ≤ 999 then
      let candidateUrl := baseUrl ++ toString counter ++ ".celm.com"
      if avail candidateUrl then some candidateUrl
      else modelUrlLoop avail baseUrl (counter + 1) left
    else none

/-- `RegistrationSession.generateUniqueShopUrl`: bare slug first, then
suffixes `2 … 999`, then `baseUrl + randomSuffix` (the
`Math.floor(Math.random() * 10000)` draw) returned without checking. -/
def generateUniqueShopUrlModel (avail : String → Bool) (businessName : String)
    (randomSuffix : Nat) : String :=
  let baseUrl := generateBaseShopUrl businessName
  if avail (baseUrl ++ ".celm.com") then baseUrl ++ ".celm.com"
  else
    match modelUrlLoop avail baseUrl 2 998 with
    | some url => url
    | none => baseUrl ++ toString randomSuffix ++ ".celm.com"

/-! ## RegistrationController endpoints -/

/-- Whether `pat` is an initial segment of the character list. -/
def headMatches : List Char → List Char → Bool
  | _, [] => true
  | [], _ :: _ => false
  | a :: as, b :: bs => a = b && headMatches as bs

/-- First-occurrence replacement over character lists (`pat` non-empty at
every use site). -/
def replaceFirstAux (pat rep : List Char) : List Char → List Char
  | [] => []
  | c :: rest =>
    if headMatches (c :: rest) pat then rep ++ (c :: rest).drop pat.length
    else c :: replaceFirstAux pat rep rest

/-- JS `s.replace(pat, rep)` with a string pattern: replaces only the
**first** occurrence. -/
def replaceOnce (s pat rep : String) : String :=
  String.mk (replaceFirstAux pat.data rep.data s.data)

/-- `RegistrationController.validateSession(sessionToken, requiredStep)`:
missing/empty token → 400; unknown or expired session → 400; otherwise the
only ordering check is `session.currentStep < requiredStep` → 400. -/
def validateSession (sessions : List Session) (sessionToken : Option String)
    (requiredStep : Nat) (now : Nat) : Except JsErr Session :=
  match sessionToken with
  | none => .error (.appError 400 "Session token is required")
  | some tok =>
    if tok = "" then .error (.appError 400 "Session token is required")
    else
      match findByToken sessions tok now with
      | none => .error (.appError 400 "Invalid or expired registration session")
      | some s =>
        if s.currentStep < requiredStep then
          .error (.appError 400 "Please complete previous steps first")
        else .ok s

/-- `RegistrationController.submitPersonalInfo`: validates the session with
`requiredStep = EMAIL_INPUT`, runs the Joi schema with
`context.isOAuth = !!session.oauthProvider`, then
`updateStep(PERSONAL_INFO, value)` followed by `nextStep()`. Returns the
updated session. -/
def submitPersonalInfo (sessions : List Session) (sessionToken : Option String)
    (body : PersonalInfoBody) (now : Nat) : Except JsErr Session := do
  let s ← validateSession sessions sessionToken EMAIL_INPUT now
  if !personalInfoJoi s.oauthProvider.isSome body then
    throw (.appError 400 "ValidationError")
  else
    let s₁ := updateStep s PERSONAL_INFO (.p2 ⟨body.firstName, body.lastName, body.password⟩) now
    return nextStep s₁ now

/-- `RegistrationController.submitBusinessType`: `requiredStep =
PERSONAL_INFO`, Joi business-type schema, `updateStep(BUSINESS_TYPE)` then
`nextStep()`. -/
def submitBusinessType (sessions : List Session) (sessionToken : Option String)
    (businessType : String) (now : Nat) : Except JsErr Session := do
  let s ← validateSession sessions sessionToken PERSONAL_INFO now
  if !businessTypeJoi businessType then
    throw (.appError 400 "ValidationError")
  else
    let s₁ := updateStep s BUSINESS_TYPE (.p3 ⟨businessType⟩) now
    return nextStep s₁ now

/-- `RegistrationController.submitShopDetails`: `requiredStep =
BUSINESS_TYPE`, Joi schema, then the controller's own URL resolver; the
stored payload gets `shopUrl = generated + '.celm.com'`. `fuel` bounds the
resolver's unbounded `while` loop; running out of fuel is modelled as the
request never completing (`none`), distinct from any error response. -/
def submitShopDetails (sessions : List Session) (sessionToken : Option String)
    (body : ShopDetailsBody) (avail : String → Bool) (fuel : Nat) (now : Nat) :
    Option (Except JsErr Session) :=
  match validateSession sessions sessionToken BUSINESS_TYPE now with
  | .error e => some (.error e)
  | .ok s =>
    if !shopDetailsJoi body then
      some (.error (.appError 400 "ValidationError"))
    else
      match generateUniqueShopUrlCtrl avail body.businessName fuel with
      | none => none
      | some shopUrl =>
        let s₁ := updateStep s SHOP_DETAILS
          (.p4 ⟨body.businessName, body.businessDescription, shopUrl ++ ".celm.com"⟩) now
        some (.ok (nextStep s₁ now))

/-- The user row assembled by `RegistrationController.completeRegistration`
(`userData` literal). -/
structure CreatedUser where
  email : String
  firstName : String
  lastName : String
  password : Option String
  shopUrl : String
  businessName : String
  businessDescription : String
  businessType : String
  location : Option LocationStepData
  oauthProvider : Option String
  oauthId : Option String
  isActive : Bool
  emailVerified : Bool
deriving Repr, DecidableEq

/-- `RegistrationController.completeRegistration`: assembles `userData`
directly from the session's payload bag using `!` non-null assertions —
`session.stepData.step2!.firstName`, `step3!.businessType`,
`step4!.shopUrl.replace('.celm.com', '')` — with **no** call to
`isComplete`/`isStepValid`. A missing `step2`, `step3` or `step4` payload
therefore raises a runtime `TypeError` (rolled back by the transaction, so
no account exists); `step5` is only read as a whole value, so its absence
does not throw. On success the account row is created with
`emailVerified: true` and `isActive: true`, tokens are minted and the
session deleted. -/
def completeRegistration (s : Session) : Except JsErr CreatedUser :=
  match s.stepData.step2 with
  | none => .error (.typeError "Cannot read properties of undefined (reading 'firstName')")
  | some p2 =>
    match s.stepData.step3 with
    | none => .error (.typeError "Cannot read properties of undefined (reading 'businessType')")
    | some p3 =>
      match s.stepData.step4 with
      | none => .error (.typeError "Cannot read properties of undefined (reading 'shopUrl')")
      | some p4 =>
        .ok
          { email := s.email
            firstName := p2.firstName
            lastName := p2.lastName
            password := p2.password
            shopUrl := replaceOnce p4.shopUrl ".celm.com" ""
            businessName := p4.businessName
            businessDescription := p4.businessDescription
            businessType := p3.businessType
            location := s.stepData.step5
            oauthProvider := s.oauthProvider
            oauthId := s.oauthId
            isActive := true
            emailVerified := true }

/-- `RegistrationController.submitLocation`: `requiredStep = SHOP_DETAILS`,
Joi schema, `updateStep(LOCATION, value)` and then `completeRegistration`
(no `nextStep`). Returns the created account. -/
def submitLocation (sessions : List Session) (sessionToken : Option String)
    (body : LocationStepData) (now : Nat) : Except JsErr CreatedUser := do
  let s ← validateSession sessions sessionToken SHOP_DETAILS now
  if !locationJoi body then
    throw (.appError 400 "ValidationError")
  else
    let s₁ := updateStep s LOCATION (.p5 body) now
    completeRegistration s₁

/-! ## Session creation (`RegistrationSession.createSession` /
`createOAuthSession`) -/

/-- The Google profile fields the OAuth path reads (`GoogleProfile`). -/
structure GoogleProfile where
  id : String
  email : String
  name : String
  given_name : Option String
  family_name : Option String
deriving Repr, DecidableEq

/-- JS `a || b` on strings (falsy `''` falls through). -/
def jsOr (a b : String) : String := if a = "" then b else a

/-- JS `s.split(' ')` over the character list: groups between single-space
separators, keeping empty groups. -/
def splitSpace : List Char → List (List Char)
  | [] => [[]]
  | c :: rest =>
    match splitSpace rest with
    | [] => [[]]
    | g :: gs => if c = ' ' then [] :: g :: gs else (c :: g) :: gs

/-- `profile.given_name || profile.name.split(' ')[0] || ''`. -/
def firstNameOf (p : GoogleProfile) : String :=
  jsOr (jsOr (p.given_name.getD "") (String.mk ((splitSpace p.name.data).headD []))) ""

/-- `profile.family_name || profile.name.split(' ').slice(1).join(' ') || ''`. -/
def lastNameOf (p : GoogleProfile) : String :=
  jsOr (jsOr (p.family_name.getD "")
      (String.mk (List.intercalate [' '] ((splitSpace p.name.data).drop 1)))) ""

/-- `RegistrationSession.createSession(email, isOAuth)`. `existing` is the
(post-cleanup) result of `findByEmail`; a live existing session is returned
idempotently. A fresh session stores `step1 = { email, isOAuth }`, starts at
`PERSONAL_INFO` when OAuth (else `EMAIL_INPUT`), marks the email verified
exactly when OAuth, and expires in 2 hours. `newId`, `sessTok` and
`verifTok` are the id/`crypto.randomBytes` oracle draws. -/
def createSession (existing : Option Session) (email : String) (isOAuth : Bool)
    (newId sessTok verifTok : String) (now : Nat) : Session :=
  match existing with
  | some s =>
    if now < s.expiresAt then s
    else freshSession email isOAuth newId sessTok verifTok now
  | none => freshSession email isOAuth newId sessTok verifTok now
where
  /-- The `sessionData` literal inserted for a brand-new session. -/
  freshSession (email : String) (isOAuth : Bool) (newId sessTok verifTok : String)
      (now : Nat) : Session :=
    { id := newId
      email := email
      sessionToken := sessTok
      stepData := { step1 := some ⟨email, isOAuth⟩ }
      currentStep := if isOAuth then PERSONAL_INFO else EMAIL_INPUT
      totalSteps := 5
      emailVerified := isOAuth
      verificationToken := some verifTok
      oauthProvider := none
      oauthId := none
      expiresAt := now + 2 * 60 * 60 * 1000
      createdAt := now
      updatedAt := now }

/-- `RegistrationSession.createOAuthSession(email, provider, profile)`:
`createSession(email, true)`, then sets the OAuth fields, forces
`emailVerified = true`, and pre-fills `step2` with
first/last name derived from the provider profile. -/
def createOAuthSession (existing : Option Session) (email provider : String)
    (profile : GoogleProfile) (newId sessTok verifTok : String) (now : Nat) : Session :=
  let s := createSession existing email true newId sessTok verifTok now
  { s with
    oauthProvider := some provider,
    oauthId := some profile.id,
    emailVerified := true,
    stepData := { s.stepData with
      step2 := some ⟨firstNameOf profile, lastNameOf profile, none⟩ } }

/-! ## The auth-variant token manager
(`AuthService` in the `auth/services` tree): password-reset issuance with
sha-256 hashed persistence. -/

/-- The lowercase hex digit for a nibble, as `Buffer.toString('hex')` emits
it: `0`-`9` for values below ten, `a`-`f` above. -/
def hexDigitChar (n : Nat) : Char :=
  if n < 10 then Char.ofNat ('0'.toNat + n) else Char.ofNat ('a'.toNat + (n - 10))

/-- One byte rendered as two lowercase hex digits. -/
def byteToHex (b : Nat) : List Char :=
  [hexDigitChar (b / 16 % 16), hexDigitChar (b % 16)]

/-- `Buffer.toString('hex')` over a byte list —
`crypto.randomBytes(32).toString('hex')` is `bytesToHex` of a 32-byte
random draw. -/
def bytesToHex (bs : List Nat) : String :=
  String.mk ((bs.map byteToHex).flatten)

/-- A lowercase hexadecimal character. -/
def isHexChar (c : Char) : Bool :=
  isDigit09 c || ('a' ≤ c && c ≤ 'f')

/-- A row of the `password_resets` table: owning user id, **hashed** token,
expiry. -/
structure ResetRec where
  userId : String
  token : String
  expiresAt : Nat
deriving Repr, DecidableEq

/-- The auth-variant `AuthService.generatePasswordResetToken` (the
realisation of the spec's `IssuePasswordReset`): unknown email → return a
dummy `crypto.randomBytes(32).toString('hex')` token with no persistence;
known email → generate the token the same way, persist only its sha-256
hash (`sha256hex` oracle) with a 15-minute expiry, after deleting any prior
reset rows for the user (`storePasswordResetToken`). -/
def generatePasswordResetToken (findByEmail : String → Option UserRow)
    (resets : List ResetRec) (email : String) (randBytes : List Nat)
    (sha256hex : String → String) (now : Nat) : String × List ResetRec :=
  match findByEmail email with
  | none => (bytesToHex randBytes, resets)
  | some user =>
    let resetToken := bytesToHex randBytes
    let hashedToken := sha256hex resetToken
    let expiresAt := now + 15 * 60 * 1000
    let resets' := resets.filter (fun r => r.userId ≠ user.id) ++
      [⟨user.id, hashedToken, expiresAt⟩]
    (resetToken, resets')

/-! ## Concrete scenario used by the token-lifecycle theorems -/

/-- An active user row. -/
def cUser : UserRow := ⟨"u1", "ada@celm.com", "pwhash", "active", none, none⟩

/-- Token-lifecycle environment: `"tok0"` is a well-signed, unexpired
refresh token for user `u1`, who exists and is active. -/
def cEnv : AuthEnv :=
  { verifyRefresh := fun t =>
      if t = "tok0" then some ⟨"u1", "ada@celm.com", "user"⟩ else none,
    findById := fun i => if i = "u1" then some cUser else none }

/-- Redis store holding the record written when `"tok0"` was issued. -/
def cSt0 : RedisStore := storeRefreshToken [] "u1" "tok0"

/-- The store after the first (legitimate) `refreshTokens` exchange of
`"tok0"`. -/
def cSt1 : RedisStore := (refreshTokens cEnv cSt0 "tok0" ("acc1", "ref1")).2

/-! ## Concrete scenarios and request bodies used by the theorems -/

/-- A user row holding a live password-reset token `"rst"`. -/
def c4User : UserRow := ⟨"u1", "ada@celm.com", "oldpw", "active", some "rst", some 100⟩

/-- The overall state after `resetPassword` consumes `"rst"` at time 50,
starting from a store that still holds the refresh-token record of
`"tok0"`. -/
def c4After : Except JsErr Unit × Option UserRow × RedisStore :=
  resetPassword [c4User] cSt0 "rst" "NewPw1!" (fun p => "bcrypt:" ++ p) 50

/-- Lookup collaborator for the reset-request scenario. -/
def c5Find : String → Option UserRow :=
  fun e => if e = "ada@celm.com" then some cUser else none

/-- A session at the LOCATION step whose payload bag is fully populated and
valid except that the required `firstName` field of the personal-info
payload has been flipped to the empty string. -/
def sC2 : Session :=
  { id := "s1"
    email := "new@biz.com"
    sessionToken := "t2"
    stepData :=
      { step1 := some ⟨"new@biz.com", false⟩
        step2 := some ⟨"", "Bo", some "Secr3t!1"⟩
        step3 := some ⟨"services"⟩
        step4 := some ⟨"Ace Repairs", "We fix things", "ace-repairs.celm.com"⟩
        step5 := some ⟨"NG", "Lagos", "Ikeja", "1 Main St"⟩ }
    currentStep := 5
    totalSteps := 5
    emailVerified := true
    verificationToken := none
    expiresAt := 7200000
    createdAt := 0
    updatedAt := 0 }

/-- The account row `completeRegistration` builds out of `sC2`. -/
def uC2 : CreatedUser :=
  { email := "new@biz.com"
    firstName := ""
    lastName := "Bo"
    password := some "Secr3t!1"
    shopUrl := "ace-repairs"
    businessName := "Ace Repairs"
    businessDescription := "We fix things"
    businessType := "services"
    location := some ⟨"NG", "Lagos", "Ikeja", "1 Main St"⟩
    oauthProvider := none
    oauthId := none
    isActive := true
    emailVerified := true }

/-- `sC2` with the whole business-type payload absent. -/
def sC2missing : Session :=
  { sC2 with stepData := { sC2.stepData with step3 := none } }

/-- A session sitting at the SHOP_DETAILS step (step 4 is its required next
submission). -/
def sC3 : Session :=
  { id := "s3"
    email := "ada@biz.com"
    sessionToken := "t3"
    stepData :=
      { step1 := some ⟨"ada@biz.com", false⟩
        step2 := some ⟨"Al", "Bo", some "Secr3t!1"⟩
        step3 := some ⟨"services"⟩ }
    currentStep := 4
    totalSteps := 5
    emailVerified := true
    verificationToken := none
    expiresAt := 7200000
    createdAt := 0
    updatedAt := 0 }

/-- A Joi-valid personal-info request body (non-OAuth: password present and
pattern-conforming). -/
def pbodyC3 : PersonalInfoBody := ⟨"Cy", "Di", some "Secr3t!1"⟩

/-- The session produced when `sC3` (at step 4) resubmits step 2. -/
def sC3after : Session :=
  nextStep (updateStep sC3 PERSONAL_INFO (.p2 ⟨"Cy", "Di", some "Secr3t!1"⟩) 0) 0

/-- A session whose required next submission is PERSONAL_INFO (step 2). -/
def sStep2 : Session :=
  { id := "s4"
    email := "eve@biz.com"
    sessionToken := "t4"
    stepData := { step1 := some ⟨"eve@biz.com", false⟩ }
    currentStep := 2
    totalSteps := 5
    emailVerified := true
    verificationToken := none
    expiresAt := 7200000
    createdAt := 0
    updatedAt := 0 }

/-- The shop-details request body of the worked example. -/
def sbAce : ShopDetailsBody := ⟨"Ace Repairs", "We fix things"⟩

/-- Availability oracle under which only the bare handle `ace-repairs` is
taken. -/
def availBareTaken : String → Bool := fun u => u ≠ "ace-repairs"

/-- A concrete Google profile. -/
def pC9 : GoogleProfile := ⟨"gid9", "ann@gmail.com", "Ann Bee", some "Ann", some "Bee"⟩

/-- C1: the first `Refresh` of `tok0` succeeds and rotates the stored
record away, yet the replay of the very same token — whose signature and
expiry still verify — is **also** accepted with a fresh pair instead of
failing with `Unauthorized`: the 401 thrown when the stored record is
missing is swallowed by the surrounding Redis-failure `catch`. This
evaluates `AuthService.refreshTokens` at the failing input of the claim. -/
theorem refresh_replay_not_rejected :
    (refreshTokens cEnv cSt0 "tok0" ("acc1", "ref1")).1 = .ok ("acc1", "ref1") ∧
    redisGet cSt1 "refresh_token:u1:tok0" = none ∧
    cEnv.verifyRefresh "tok0" = some ⟨"u1", "ada@celm.com", "user"⟩ ∧
    (refreshTokens cEnv cSt1 "tok0" ("acc2", "ref2")).1 = .ok ("acc2", "ref2") :=
  ⟨rfl, rfl, rfl, rfl⟩

/-- C4: password reset succeeds, but the account's previously-issued
refresh-token record survives: `resetPassword` deletes only the literal key
`refresh_tokens:u1:*` (wrong prefix, and Redis `DEL` does not expand `*`),
so the old refresh token still refreshes successfully afterwards instead of
failing. This evaluates `AuthService.resetPassword` followed by
`AuthService.refreshTokens` at the failing input of the claim. -/
theorem revoke_all_leaves_refresh_record_live :
    c4After.1 = .ok () ∧
    redisGet c4After.2.2 "refresh_token:u1:tok0" = some "valid" ∧
    (refreshTokens cEnv c4After.2.2 "tok0" ("acc3", "ref3")).1 = .ok ("acc3", "ref3") :=
  ⟨rfl, rfl, rfl⟩

/-- C5 counterexample: both time-bounded secrets are persisted **raw** —
the refresh-token record's key literally embeds the raw token
(`refresh_token:u1:` ++ `tok123`), and the password-reset record stores the
presented raw token itself (`some "rawreset"`), not a one-way hash of it. -/
theorem raw_secret_values_persisted :
    storeRefreshToken [] "u1" "tok123" =
      [⟨"refresh_token:u1:" ++ "tok123", "valid", some (7 * 24 * 60 * 60)⟩] ∧
    (requestPasswordReset c5Find "ada@celm.com" "rawreset" 0).2 =
      some { cUser with
              passwordResetToken := some "rawreset",
              passwordResetExpires := some 600000 } :=
  ⟨rfl, rfl⟩

/-- C5 (amended): each secret is persisted with an explicit expiry, but in
raw form: the refresh-token record is keyed by
`refresh_token:{userId}:{rawToken}` with a 7-day TTL, and the reset record
stores the raw token with a 10-minute expiry (and consumption matches the
raw value directly); an unknown email persists nothing. -/
theorem secrets_stored_raw_with_expiry
    (st : RedisStore) (u t : String) (findByEmail : String → Option UserRow)
    (email tokenR : String) (now : Nat) (user : UserRow)
    (hfound : findByEmail email = some user) :
    redisGet (storeRefreshToken st u t) ("refresh_token:" ++ u ++ ":" ++ t) = some "valid" ∧
    (∃ e ∈ storeRefreshToken st u t,
        e.key = "refresh_token:" ++ u ++ ":" ++ t ∧ e.ttl = some (7 * 24 * 60 * 60)) ∧
    (requestPasswordReset findByEmail email tokenR now).2 =
      some { user with
              passwordResetToken := some tokenR,
              passwordResetExpires := some (now + 10 * 60 * 1000) } ∧
    findByPasswordResetToken
      [{ user with
          passwordResetToken := some tokenR,
          passwordResetExpires := some (now + 10 * 60 * 1000) }] tokenR now =
      some { user with
              passwordResetToken := some tokenR,
              passwordResetExpires := some (now + 10 * 60 * 1000) } := by
  refine ⟨?_, ?_, ?_, ?_⟩
  · simp [storeRefreshToken, redisSet, redisGet, List.find?]
  · exact ⟨⟨"refresh_token:" ++ u ++ ":" ++ t, "valid", some (7 * 24 * 60 * 60)⟩,
      by simp [storeRefreshToken, redisSet], rfl, rfl⟩
  · simp [requestPasswordReset, hfound]
  · have hlt : now < now + 10 * 60 * 1000 := by omega
    simp [findByPasswordResetToken, List.find?, hlt]

/-- C5 amended witness at a concrete instance. -/
theorem secrets_stored_raw_with_expiry_witness :
    redisGet (storeRefreshToken [] "u1" "tok123") "refresh_token:u1:tok123" = some "valid" ∧
    (∃ e ∈ storeRefreshToken [] "u1" "tok123",
        e.key = "refresh_token:u1:tok123" ∧ e.ttl = some (7 * 24 * 60 * 60)) ∧
    (requestPasswordReset c5Find "ada@celm.com" "rawreset" 0).2 =
      some { cUser with
              passwordResetToken := some "rawreset",
              passwordResetExpires := some 600000 } ∧
    findByPasswordResetToken
      [{ cUser with
          passwordResetToken := some "rawreset",
          passwordResetExpires := some 600000 }] "rawreset" 0 =
      some { cUser with
              passwordResetToken := some "rawreset",
              passwordResetExpires := some 600000 } :=
  secrets_stored_raw_with_expiry [] "u1" "tok123" c5Find "ada@celm.com" "rawreset" 0 cUser
    (by decide)

/-! ## Concrete wizard scenarios -/

/-- C2 counterexample: the personal-info validity predicate fails on `sC2`
(empty required `firstName`), so `isComplete` is false — yet
`completeRegistration` succeeds and creates the account (with the empty
first name), instead of failing with `BadRequest` and creating nothing. -/
theorem finalize_accepts_empty_required_field :
    isStepValid sC2 PERSONAL_INFO = false ∧
    sC2.isComplete = false ∧
    completeRegistration sC2 = .ok uC2 :=
  ⟨rfl, rfl, rfl⟩

/-- C2 (amended): `completeRegistration` consults no per-step validity
predicate (`isComplete` is never called): it succeeds exactly when the
step-2, step-3 and step-4 payload objects are present, whatever their field
contents (empty required fields included); when one of those payloads is
absent it fails with a runtime type error surfaced as 500 — not
`BadRequest` — and the transaction leaves no account; any account it does
create is persisted with `emailVerified` and `isActive` set to true. -/
theorem completeRegistration_presence_only (s : Session) :
    ((completeRegistration s).isOk ↔
      (s.stepData.step2.isSome ∧ s.stepData.step3.isSome ∧ s.stepData.step4.isSome)) ∧
    (∀ e, completeRegistration s = .error e →
      e.httpStatus = 500 ∧ e.isBadRequest = false) ∧
    (∀ u, completeRegistration s = .ok u →
      u.emailVerified = true ∧ u.isActive = true) := by
  cases h2 : s.stepData.step2 <;> cases h3 : s.stepData.step3 <;>
    cases h4 : s.stepData.step4 <;>
      simp [completeRegistration, h2, h3, h4, JsErr.httpStatus, JsErr.isBadRequest,
        Except.isOk, Except.toBool]

/-- C2 amended witness: the theorem applied at `sC2missing` (absent step-3
payload → type error with status 500) and at `sC2` (account created with
`emailVerified` true). -/
theorem completeRegistration_presence_only_witness :
    ((JsErr.typeError "Cannot read properties of undefined (reading 'businessType')").httpStatus = 500 ∧
      (JsErr.typeError "Cannot read properties of undefined (reading 'businessType')").isBadRequest = false) ∧
    (uC2.emailVerified = true ∧ uC2.isActive = true) :=
  ⟨(completeRegistration_presence_only sC2missing).2.1 _ rfl,
   (completeRegistration_presence_only sC2).2.2 uC2 rfl⟩

/-- C3 counterexample: `sC3`'s required next step is SHOP_DETAILS (4), yet
submitting PERSONAL_INFO (2 ≠ 4) is accepted — the guard only rejects
`currentStep < requiredStep` — instead of failing with `BadRequest`. -/
theorem out_of_order_submission_accepted :
    sC3.currentStep = SHOP_DETAILS ∧
    PERSONAL_INFO ≠ sC3.currentStep ∧
    submitPersonalInfo [sC3] (some "t3") pbodyC3 0 = .ok sC3after :=
  ⟨rfl, by decide, rfl⟩

/-- Helper: when the token is non-empty and resolves to a live session, the
controller's `validateSession` reduces to the single ordering check. -/
theorem validateSession_found (sessions : List Session) (tok : String) (now : Nat)
    (s : Session) (htok : tok ≠ "") (hfind : findByToken sessions tok now = some s)
    (required : Nat) :
    validateSession sessions (some tok) required now =
      if s.currentStep < required then
        .error (.appError 400 "Please complete previous steps first")
      else .ok s := by
  simp [validateSession, htok, hfind]

/-- Reduction of the `Except` monad's bind on a success value. -/
theorem exceptBind_ok {ε α β : Type} (a : α) (f : α → Except ε β) :
    (Except.ok a >>= f) = f a := rfl

/-- Reduction of the `Except` monad's bind on an error value. -/
theorem exceptBind_error {ε α β : Type} (e : ε) (f : α → Except ε β) :
    ((Except.error e : Except ε α) >>= f) = Except.error e := rfl

/-- Reduction of `Functor.map` over a success value of `Except`. -/
theorem exceptMap_ok {ε α β : Type} (a : α) (f : α → β) :
    (f <$> (Except.ok a : Except ε α)) = Except.ok (f a) := rfl

/-- Reduction of `Functor.map` over an error value of `Except`. -/
theorem exceptMap_error {ε α β : Type} (e : ε) (f : α → β) :
    (f <$> (Except.error e : Except ε α)) = Except.error e := rfl

/-- Reduction of `pure` in the `Except` monad. -/
theorem exceptPure_def {ε α : Type} (a : α) : (pure a : Except ε α) = Except.ok a := rfl

/-- Reduction of `throw` in the `Except` monad. -/
theorem exceptThrow_def {ε α : Type} (e : ε) : (throw e : Except ε α) = Except.error e := rfl

/-- C3 (amended): a step submission is rejected — always with a 400
(`BadRequest`/validation) error — precisely when the session lookup fails,
the payload fails its schema, or `currentStep < submittedStep − 1`; in
particular earlier steps may be resubmitted and the step one beyond
`currentStep` may be submitted. Submitting exactly the current step with a
valid payload advances `currentStep` by exactly one. Stated for the three
store-and-advance endpoints (steps 2, 3 and 4), whose shared guard is
`validateSession(submittedStep − 1)`. -/
theorem submit_guard_characterised
    (sessions : List Session) (tok : String) (now : Nat) (s : Session)
    (pb : PersonalInfoBody) (bt : String) (sb : ShopDetailsBody)
    (avail : String → Bool) (fuel : Nat) (url : String)
    (htok : tok ≠ "")
    (hfind : findByToken sessions tok now = some s)
    (hts : s.totalSteps = 5)
    (hpb : personalInfoJoi s.oauthProvider.isSome pb = true)
    (hbt : businessTypeJoi bt = true)
    (hsb : shopDetailsJoi sb = true)
    (hurl : generateUniqueShopUrlCtrl avail sb.businessName fuel = some url) :
    ((submitPersonalInfo sessions (some tok) pb now).isOk ↔
      PERSONAL_INFO - 1 ≤ s.currentStep) ∧
    ((submitBusinessType sessions (some tok) bt now).isOk ↔
      BUSINESS_TYPE - 1 ≤ s.currentStep) ∧
    ((∃ r, submitShopDetails sessions (some tok) sb avail fuel now = some r ∧
        r.isOk = true) ↔
      SHOP_DETAILS - 1 ≤ s.currentStep) ∧
    (∀ s', submitPersonalInfo sessions (some tok) pb now = .ok s' →
      s.currentStep = PERSONAL_INFO → s'.currentStep = s.currentStep + 1) ∧
    (∀ s', submitBusinessType sessions (some tok) bt now = .ok s' →
      s.currentStep = BUSINESS_TYPE → s'.currentStep = s.currentStep + 1) ∧
    (∀ s', submitShopDetails sessions (some tok) sb avail fuel now = some (.ok s') →
      s.currentStep = SHOP_DETAILS → s'.currentStep = s.currentStep + 1) ∧
    (∀ e, submitPersonalInfo sessions (some tok) pb now = .error e →
      e.isBadRequest = true) ∧
    (∀ e, submitBusinessType sessions (some tok) bt now = .error e →
      e.isBadRequest = true) := by
  have hv1 := validateSession_found sessions tok now s htok hfind EMAIL_INPUT
  have hv2 := validateSession_found sessions tok now s htok hfind PERSONAL_INFO
  have hv3 := validateSession_found sessions tok now s htok hfind BUSINESS_TYPE
  simp only [EMAIL_INPUT, PERSONAL_INFO, BUSINESS_TYPE] at hv1 hv2 hv3
  refine ⟨?_, ?_, ?_, ?_, ?_, ?_, ?_, ?_⟩
  · by_cases h : s.currentStep < 1 <;>
      simp [submitPersonalInfo, hv1, EMAIL_INPUT, PERSONAL_INFO, h, hpb,
        exceptBind_ok, exceptBind_error, exceptMap_ok, exceptMap_error,
        exceptPure_def, exceptThrow_def,
        Except.isOk, Except.toBool] <;>
      omega
  · by_cases h : s.currentStep < 2 <;>
      simp [submitBusinessType, hv2, PERSONAL_INFO, BUSINESS_TYPE, h, hbt,
        exceptBind_ok, exceptBind_error, exceptMap_ok, exceptMap_error,
        exceptPure_def, exceptThrow_def,
        Except.isOk, Except.toBool] <;>
      omega
  · by_cases h : s.currentStep < 3 <;>
      simp [submitShopDetails, hv3, BUSINESS_TYPE, SHOP_DETAILS, h, hsb, hurl,
        exceptBind_ok, exceptBind_error, exceptMap_ok, exceptMap_error,
        exceptPure_def, exceptThrow_def,
        Except.isOk, Except.toBool] <;>
      omega
  · intro s' heq hcur
    by_cases h : s.currentStep < 1 <;>
      simp [submitPersonalInfo, hv1, EMAIL_INPUT, h, hpb,
        exceptBind_ok, exceptBind_error, exceptMap_ok, exceptMap_error,
        exceptPure_def, exceptThrow_def] at heq
    subst heq
    simp [PERSONAL_INFO] at hcur
    simp [updateStep, nextStep, hts, hcur, PERSONAL_INFO]
  · intro s' heq hcur
    by_cases h : s.currentStep < 2 <;>
      simp [submitBusinessType, hv2, PERSONAL_INFO, h, hbt,
        exceptBind_ok, exceptBind_error, exceptMap_ok, exceptMap_error,
        exceptPure_def, exceptThrow_def] at heq
    subst heq
    simp [BUSINESS_TYPE] at hcur
    simp [updateStep, nextStep, hts, hcur, BUSINESS_TYPE]
  · intro s' heq hcur
    by_cases h : s.currentStep < 3 <;>
      simp [submitShopDetails, hv3, BUSINESS_TYPE, h, hsb, hurl,
        exceptBind_ok, exceptBind_error, exceptMap_ok, exceptMap_error,
        exceptPure_def, exceptThrow_def] at heq
    subst heq
    simp [SHOP_DETAILS] at hcur
    simp [updateStep, nextStep, hts, hcur, SHOP_DETAILS]
  · intro e heq
    by_cases h : s.currentStep < 1 <;>
      simp [submitPersonalInfo, hv1, EMAIL_INPUT, h, hpb,
        exceptBind_ok, exceptBind_error, exceptMap_ok, exceptMap_error,
        exceptPure_def, exceptThrow_def] at heq
    subst heq
    rfl
  · intro e heq
    by_cases h : s.currentStep < 2 <;>
      simp [submitBusinessType, hv2, PERSONAL_INFO, h, hbt,
        exceptBind_ok, exceptBind_error, exceptMap_ok, exceptMap_error,
        exceptPure_def, exceptThrow_def] at heq
    subst heq
    rfl

/-- C3 amended witness: the guard characterisation applied at a concrete
session sitting at PERSONAL_INFO. -/
theorem submit_guard_characterised_witness :
    ((submitPersonalInfo [sStep2] (some "t4") pbodyC3 0).isOk ↔
      PERSONAL_INFO - 1 ≤ sStep2.currentStep) ∧
    ((submitBusinessType [sStep2] (some "t4") "services" 0).isOk ↔
      BUSINESS_TYPE - 1 ≤ sStep2.currentStep) :=
  ⟨(submit_guard_characterised [sStep2] "t4" 0 sStep2 pbodyC3 "services" sbAce
      (fun _ => true) 1 "ace-repairs" (by decide) rfl rfl rfl rfl rfl rfl).1,
   (submit_guard_characterised [sStep2] "t4" 0 sStep2 pbodyC3 "services" sbAce
      (fun _ => true) 1 "ace-repairs" (by decide) rfl rfl rfl rfl rfl rfl).2.1⟩

/-- C6 counterexample: the wizard accepts the resubmission of
PERSONAL_INFO into session `sC3` (which sits at step 4) and the session's
`currentStep` moves **down** from 4 to 3 — no restart involved. -/
theorem current_step_decreases_on_accepted_submission :
    sC3.currentStep = 4 ∧
    submitPersonalInfo [sC3] (some "t3") pbodyC3 0 = .ok sC3after ∧
    sC3after.currentStep = 3 ∧
    sC3after.currentStep < sC3.currentStep :=
  ⟨rfl, rfl, rfl, by decide⟩

/-- C6 (amended): an accepted submission of step `k` always leaves
`currentStep = k + 1`; consequently `currentStep` decreases exactly when an
earlier step (`k + 1 <` the old step) is resubmitted — which the wizard
allows — and never decreases on a submission of a step at or beyond
`currentStep`. Stated for the three store-and-advance endpoints. -/
theorem accepted_submission_sets_next_step
    (sessions : List Session) (tok : String) (now : Nat) (s : Session)
    (pb : PersonalInfoBody) (bt : String) (sb : ShopDetailsBody)
    (avail : String → Bool) (fuel : Nat)
    (htok : tok ≠ "")
    (hfind : findByToken sessions tok now = some s)
    (hts : s.totalSteps = 5) :
    (∀ s', submitPersonalInfo sessions (some tok) pb now = .ok s' →
      s'.currentStep = PERSONAL_INFO + 1 ∧
        (s.currentStep ≤ PERSONAL_INFO → s.currentStep ≤ s'.currentStep)) ∧
    (∀ s', submitBusinessType sessions (some tok) bt now = .ok s' →
      s'.currentStep = BUSINESS_TYPE + 1 ∧
        (s.currentStep ≤ BUSINESS_TYPE → s.currentStep ≤ s'.currentStep)) ∧
    (∀ s', submitShopDetails sessions (some tok) sb avail fuel now = some (.ok s') →
      s'.currentStep = SHOP_DETAILS + 1 ∧
        (s.currentStep ≤ SHOP_DETAILS → s.currentStep ≤ s'.currentStep)) := by
  have hv1 := validateSession_found sessions tok now s htok hfind EMAIL_INPUT
  have hv2 := validateSession_found sessions tok now s htok hfind PERSONAL_INFO
  have hv3 := validateSession_found sessions tok now s htok hfind BUSINESS_TYPE
  simp only [EMAIL_INPUT, PERSONAL_INFO, BUSINESS_TYPE] at hv1 hv2 hv3
  refine ⟨?_, ?_, ?_⟩
  · intro s' heq
    by_cases h : s.currentStep < 1 <;>
      by_cases hj : personalInfoJoi s.oauthProvider.isSome pb <;>
        simp [submitPersonalInfo, hv1, h, hj, EMAIL_INPUT, exceptBind_ok,
          exceptBind_error, exceptMap_ok, exceptMap_error, exceptPure_def,
          exceptThrow_def] at heq
    subst heq
    refine ⟨by simp [updateStep, nextStep, hts, PERSONAL_INFO], ?_⟩
    intro hle
    simp [updateStep, nextStep, hts, PERSONAL_INFO] at *
    omega
  · intro s' heq
    by_cases h : s.currentStep < 2 <;>
      by_cases hj : businessTypeJoi bt <;>
        simp [submitBusinessType, hv2, h, hj, PERSONAL_INFO, exceptBind_ok,
          exceptBind_error, exceptMap_ok, exceptMap_error, exceptPure_def,
          exceptThrow_def] at heq
    subst heq
    refine ⟨by simp [updateStep, nextStep, hts, BUSINESS_TYPE], ?_⟩
    intro hle
    simp [updateStep, nextStep, hts, BUSINESS_TYPE] at *
    omega
  · intro s' heq
    by_cases h : s.currentStep < 3 <;>
      by_cases hj : shopDetailsJoi sb <;>
        cases hg : generateUniqueShopUrlCtrl avail sb.businessName fuel <;>
          simp [submitShopDetails, hv3, h, hj, hg, BUSINESS_TYPE, exceptBind_ok,
            exceptBind_error, exceptMap_ok, exceptMap_error, exceptPure_def,
            exceptThrow_def] at heq
    subst heq
    refine ⟨by simp [updateStep, nextStep, hts, SHOP_DETAILS], ?_⟩
    intro hle
    simp [updateStep, nextStep, hts, SHOP_DETAILS] at *
    omega

/-- C6 amended witness: the theorem applied at the concrete decrease
scenario of `sC3`. -/
theorem accepted_submission_sets_next_step_witness :
    sC3after.currentStep = PERSONAL_INFO + 1 ∧
    (sC3.currentStep ≤ PERSONAL_INFO → sC3.currentStep ≤ sC3after.currentStep) :=
  (accepted_submission_sets_next_step [sC3] "t3" 0 sC3 pbodyC3 "services" sbAce
      (fun _ => true) 1 (by decide) rfl rfl).1 sC3after rfl

/-- C7 counterexample: the resolver the wizard uses hyphenates and starts
its numeric suffixes at 1, so with the bare slug taken, "Ace Repairs"
resolves to `ace-repairs-1`, not the claimed `ace-repairs2` (which is what
its suffixes-start-at-2 policy would produce). -/
theorem ace_repairs_resolves_to_hyphen_one :
    generateUniqueShopUrlCtrl (fun _ => true) "Ace Repairs" 1 = some "ace-repairs" ∧
    generateUniqueShopUrlCtrl availBareTaken "Ace Repairs" 2 = some "ace-repairs-1" ∧
    "ace-repairs-1" ≠ "ace-repairs2" :=
  ⟨rfl, rfl, by decide⟩

/-- Associativity of string concatenation. -/
theorem strAppend_assoc (a b c : String) : a ++ b ++ c = a ++ (b ++ c) := by
  cases a with | mk la => cases b with | mk lb => cases c with | mk lc =>
  show String.mk (la ++ lb ++ lc) = String.mk (la ++ (lb ++ lc))
  rw [List.append_assoc]

/-- Helper: when no candidate is ever available, the model resolver's
bounded loop over suffixes 2…999 exhausts without an answer. -/
theorem modelUrlLoop_all_taken (avail : String → Bool) (baseUrl : String)
    (hall : ∀ u, avail u = false) :
    ∀ left counter, modelUrlLoop avail baseUrl counter left = none := by
  intro left
  induction left with
  | zero => intro c; rfl
  | succ n ih =>
    intro c
    simp only [modelUrlLoop, hall]
    split <;> simp [ih]

/-- C7 (amended): the two resolvers diverge. The controller resolver used
by the wizard returns the bare slug when available and otherwise walks
hyphenated candidates `base-1`, `base-2`, … checking each, with no attempt
bound; so "Ace Repairs" yields `ace-repairs`, or `ace-repairs-1` when the
bare handle is taken. The model-class resolver (not called by the wizard)
returns the bare `….celm.com` slug when available, otherwise suffixes
2…999 each checked, and after those 998 checks falls back to appending a
random suffix without further checking — it, not the wizard's resolver, is
the bounded-then-random policy. -/
theorem shop_url_resolution_characterised
    (avail : String → Bool) (name : String) (fuel r : Nat) :
    (avail (slugifyCtrl name) = true →
      generateUniqueShopUrlCtrl avail name (fuel + 1) = some (slugifyCtrl name)) ∧
    (avail (slugifyCtrl name) = false → avail (slugifyCtrl name ++ "-1") = true →
      generateUniqueShopUrlCtrl avail name (fuel + 2) = some (slugifyCtrl name ++ "-1")) ∧
    (avail (generateBaseShopUrl name ++ ".celm.com") = true →
      generateUniqueShopUrlModel avail name r = generateBaseShopUrl name ++ ".celm.com") ∧
    ((∀ u, avail u = false) →
      generateUniqueShopUrlModel avail name r =
        generateBaseShopUrl name ++ toString r ++ ".celm.com") := by
  refine ⟨?_, ?_, ?_, ?_⟩
  · intro h
    simp [generateUniqueShopUrlCtrl, ctrlUrlLoop, h]
  · intro h1 h2
    have ht : (toString 1 : String) = "1" := rfl
    have hs : slugifyCtrl name ++ "-" ++ toString 1 = slugifyCtrl name ++ "-1" := by
      rw [ht, strAppend_assoc]
      rfl
    simp [generateUniqueShopUrlCtrl, ctrlUrlLoop, h1, hs, h2]
  · intro h
    simp [generateUniqueShopUrlModel, h]
  · intro hall
    simp [generateUniqueShopUrlModel, hall, modelUrlLoop_all_taken avail _ hall]

/-- C7 amended witness: the characterisation applied to the worked example
with everything available, and to a fully-taken table where the model
resolver emits the unchecked random-suffix fallback. -/
theorem shop_url_resolution_characterised_witness :
    generateUniqueShopUrlCtrl (fun _ => true) "Ace Repairs" 3 = some "ace-repairs" ∧
    generateUniqueShopUrlModel (fun _ => false) "Ace Repairs" 77 = "acerepairs77.celm.com" :=
  ⟨(shop_url_resolution_characterised (fun _ => true) "Ace Repairs" 2 0).1 rfl,
   (shop_url_resolution_characterised (fun _ => false) "Ace Repairs" 0 77).2.2.2
      (fun _ => rfl)⟩

/-- Every hex digit rendered by `hexDigitChar` on a nibble is a lowercase
hex character. -/
theorem hexDigitChar_isHex : ∀ n, n < 16 → isHexChar (hexDigitChar n) = true := by
  decide

/-- A hex rendering of a byte list has twice its length. -/
theorem bytesToHex_length (bs : List Nat) : (bytesToHex bs).length = 2 * bs.length := by
  induction bs with
  | nil => rfl
  | cons b rest ih =>
    have ih' : ((rest.map byteToHex).flatten).length = 2 * rest.length := ih
    show (byteToHex b ++ (rest.map byteToHex).flatten).length = 2 * (rest.length + 1)
    simp [byteToHex, List.length_append, ih']
    omega

/-- Every character of a hex rendering is a lowercase hex character. -/
theorem bytesToHex_chars (bs : List Nat) :
    ∀ c ∈ (bytesToHex bs).data, isHexChar c = true := by
  induction bs with
  | nil => intro c hc; cases hc
  | cons b rest ih =>
    intro c hc
    have hc' : c ∈ byteToHex b ++ (rest.map byteToHex).flatten := hc
    rcases List.mem_append.mp hc' with h | h
    · rcases List.mem_cons.mp h with h | h
      · subst h; exact hexDigitChar_isHex _ (Nat.mod_lt _ (by omega))
      rcases List.mem_cons.mp h with h | h
      · subst h; exact hexDigitChar_isHex _ (Nat.mod_lt _ (by omega))
      cases h
    · exact ih c h

/-- C8: `generatePasswordResetToken` (the realisation of
`IssuePasswordReset`) returns to its caller exactly the hex rendering of
the 32-byte random draw whether or not the email is known — the same
response shape and a syntactically valid 64-character lowercase-hex token
in both cases — and persists a (sha-256-hashed, 15-minute) reset row only
in the known-email case, replacing any prior row for that user; the
unknown-email case persists nothing. -/
theorem issue_password_reset_parity
    (findByEmail : String → Option UserRow) (resets : List ResetRec)
    (email : String) (randBytes : List Nat) (sha256hex : String → String)
    (now : Nat) (hlen : randBytes.length = 32) :
    (generatePasswordResetToken findByEmail resets email randBytes sha256hex now).1 =
      bytesToHex randBytes ∧
    (generatePasswordResetToken findByEmail resets email randBytes sha256hex now).1.length = 64 ∧
    (∀ c ∈ (generatePasswordResetToken findByEmail resets email randBytes sha256hex now).1.data,
      isHexChar c = true) ∧
    (findByEmail email = none →
      (generatePasswordResetToken findByEmail resets email randBytes sha256hex now).2 = resets) ∧
    (∀ u, findByEmail email = some u →
      (generatePasswordResetToken findByEmail resets email randBytes sha256hex now).2 =
        resets.filter (fun rr => rr.userId ≠ u.id) ++
          [⟨u.id, sha256hex (bytesToHex randBytes), now + 15 * 60 * 1000⟩]) := by
  cases hfe : findByEmail email with
  | none =>
    have h : generatePasswordResetToken findByEmail resets email randBytes sha256hex now =
        (bytesToHex randBytes, resets) := by
      simp [generatePasswordResetToken, hfe]
    rw [h]
    refine ⟨rfl, ?_, ?_, fun _ => rfl, ?_⟩
    · show (bytesToHex randBytes).length = 64
      rw [bytesToHex_length, hlen]
    · show ∀ c ∈ (bytesToHex randBytes).data, isHexChar c = true
      exact bytesToHex_chars randBytes
    · intro u hu
      exact Option.noConfusion hu
  | some u₀ =>
    have h : generatePasswordResetToken findByEmail resets email randBytes sha256hex now =
        (bytesToHex randBytes,
          resets.filter (fun rr => rr.userId ≠ u₀.id) ++
            [⟨u₀.id, sha256hex (bytesToHex randBytes), now + 15 * 60 * 1000⟩]) := by
      simp [generatePasswordResetToken, hfe]
    rw [h]
    refine ⟨rfl, ?_, ?_, ?_, ?_⟩
    · show (bytesToHex randBytes).length = 64
      rw [bytesToHex_length, hlen]
    · show ∀ c ∈ (bytesToHex randBytes).data, isHexChar c = true
      exact bytesToHex_chars randBytes
    · intro hnone
      exact Option.noConfusion hnone
    · intro u hu
      cases hu
      rfl

/-- C8 witness: the parity theorem applied at a concrete 32-byte draw, for
an unknown email (no persistence, dummy token of 64 hex characters). -/
theorem issue_password_reset_parity_witness :
    (generatePasswordResetToken (fun _ => none) [] "ghost@x.io"
        (List.replicate 32 0) (fun s => "sha:" ++ s) 0).1 =
      bytesToHex (List.replicate 32 0) ∧
    (generatePasswordResetToken (fun _ => none) [] "ghost@x.io"
        (List.replicate 32 0) (fun s => "sha:" ++ s) 0).1.length = 64 ∧
    (generatePasswordResetToken (fun _ => none) [] "ghost@x.io"
        (List.replicate 32 0) (fun s => "sha:" ++ s) 0).2 = [] :=
  ⟨(issue_password_reset_parity (fun _ => none) [] "ghost@x.io"
      (List.replicate 32 0) (fun s => "sha:" ++ s) 0 (by decide)).1,
   (issue_password_reset_parity (fun _ => none) [] "ghost@x.io"
      (List.replicate 32 0) (fun s => "sha:" ++ s) 0 (by decide)).2.1,
   (issue_password_reset_parity (fun _ => none) [] "ghost@x.io"
      (List.replicate 32 0) (fun s => "sha:" ++ s) 0 (by decide)).2.2.2.1 rfl⟩

/-- C9: when `createOAuthSession` actually creates a session (no live
session for the email pre-exists, which is the only case in which a session
is created rather than an old one reused), the session is marked
email-verified at creation, its current step is PERSONAL_INFO, and its
step-2 payload is pre-filled with the first/last name derived from the
provider profile (given/family name, falling back to splitting the display
name); its OAuth provider and id are recorded. -/
theorem oauth_session_prefilled
    (existing : Option Session) (email provider : String) (profile : GoogleProfile)
    (newId sessTok verifTok : String) (now : Nat)
    (hfresh : ∀ s, existing = some s → s.expiresAt ≤ now) :
    (createOAuthSession existing email provider profile newId sessTok verifTok now).emailVerified = true ∧
    (createOAuthSession existing email provider profile newId sessTok verifTok now).currentStep = PERSONAL_INFO ∧
    (createOAuthSession existing email provider profile newId sessTok verifTok now).stepData.step2 =
      some ⟨firstNameOf profile, lastNameOf profile, none⟩ ∧
    (createOAuthSession existing email provider profile newId sessTok verifTok now).oauthProvider =
      some provider ∧
    (createOAuthSession existing email provider profile newId sessTok verifTok now).oauthId =
      some profile.id := by
  cases existing with
  | none =>
    simp [createOAuthSession, createSession, createSession.freshSession, PERSONAL_INFO]
  | some s =>
    have hexp := hfresh s rfl
    have hnot : ¬ now < s.expiresAt := by omega
    simp [createOAuthSession, createSession, hnot, createSession.freshSession, PERSONAL_INFO]

/-- C9 witness: a fresh OAuth session for a concrete profile. -/
theorem oauth_session_prefilled_witness :
    (createOAuthSession none "ann@gmail.com" "google" pC9 "id9" "st9" "vt9" 0).emailVerified = true ∧
    (createOAuthSession none "ann@gmail.com" "google" pC9 "id9" "st9" "vt9" 0).currentStep = PERSONAL_INFO ∧
    (createOAuthSession none "ann@gmail.com" "google" pC9 "id9" "st9" "vt9" 0).stepData.step2 =
      some ⟨firstNameOf pC9, lastNameOf pC9, none⟩ ∧
    (createOAuthSession none "ann@gmail.com" "google" pC9 "id9" "st9" "vt9" 0).oauthProvider =
      some "google" ∧
    (createOAuthSession none "ann@gmail.com" "google" pC9 "id9" "st9" "vt9" 0).oauthId =
      some pC9.id :=
  oauth_session_prefilled none "ann@gmail.com" "google" pC9 "id9" "st9" "vt9" 0
    (fun _ h => Option.noConfusion h)

/-- Helper: lookup of a single live session by its own token. -/
theorem findByToken_singleton (s : Session) (tok : String) (now : Nat)
    (hstok : s.sessionToken = tok) (hexp : ¬ s.expiresAt < now) :
    findByToken [s] tok now = some s := by
  simp [findByToken, List.find?, hstok, hexp]

/-- Helper: the personal-info endpoint on a found session with a passing
schema, in closed form. -/
theorem submitPersonalInfo_ok_eq (sessions : List Session) (tok : String)
    (now : Nat) (s : Session) (pb : PersonalInfoBody)
    (htok : tok ≠ "") (hfind : findByToken sessions tok now = some s)
    (hstep : ¬ s.currentStep < EMAIL_INPUT)
    (hpb : personalInfoJoi s.oauthProvider.isSome pb = true) :
    submitPersonalInfo sessions (some tok) pb now =
      .ok (nextStep
        (updateStep s PERSONAL_INFO (.p2 ⟨pb.firstName, pb.lastName, pb.password⟩) now) now) := by
  have hv := validateSession_found sessions tok now s htok hfind EMAIL_INPUT
  simp [submitPersonalInfo, hv, hstep, hpb, exceptBind_ok, exceptBind_error,
    exceptPure_def, exceptThrow_def]

/-- Helper: the business-type endpoint on a found session with a passing
schema, in closed form. -/
theorem submitBusinessType_ok_eq (sessions : List Session) (tok : String)
    (now : Nat) (s : Session) (bt : String)
    (htok : tok ≠ "") (hfind : findByToken sessions tok now = some s)
    (hstep : ¬ s.currentStep < PERSONAL_INFO)
    (hbt : businessTypeJoi bt = true) :
    submitBusinessType sessions (some tok) bt now =
      .ok (nextStep (updateStep s BUSINESS_TYPE (.p3 ⟨bt⟩) now) now) := by
  have hv := validateSession_found sessions tok now s htok hfind PERSONAL_INFO
  simp [submitBusinessType, hv, hstep, hbt, exceptBind_ok, exceptBind_error,
    exceptMap_ok, exceptMap_error, exceptPure_def, exceptThrow_def]

/-- Helper: the shop-details endpoint on a found session with a passing
schema and a resolving URL generator, in closed form. -/
theorem submitShopDetails_ok_eq (sessions : List Session) (tok : String)
    (now : Nat) (s : Session) (sb : ShopDetailsBody) (avail : String → Bool)
    (fuel : Nat) (url : String)
    (htok : tok ≠ "") (hfind : findByToken sessions tok now = some s)
    (hstep : ¬ s.currentStep < BUSINESS_TYPE)
    (hsb : shopDetailsJoi sb = true)
    (hurl : generateUniqueShopUrlCtrl avail sb.businessName fuel = some url) :
    submitShopDetails sessions (some tok) sb avail fuel now =
      some (.ok (nextStep
        (updateStep s SHOP_DETAILS
          (.p4 ⟨sb.businessName, sb.businessDescription, url ++ ".celm.com"⟩) now) now)) := by
  have hv := validateSession_found sessions tok now s htok hfind BUSINESS_TYPE
  simp [submitShopDetails, hv, hstep, hsb, hurl]

/-- Helper: the location endpoint on a found session with a passing schema
reduces to finalization of the updated session. -/
theorem submitLocation_eq (sessions : List Session) (tok : String)
    (now : Nat) (s : Session) (loc : LocationStepData)
    (htok : tok ≠ "") (hfind : findByToken sessions tok now = some s)
    (hstep : ¬ s.currentStep < SHOP_DETAILS)
    (hloc : locationJoi loc = true) :
    submitLocation sessions (some tok) loc now =
      completeRegistration (updateStep s LOCATION (.p5 loc) now) := by
  have hv := validateSession_found sessions tok now s htok hfind SHOP_DETAILS
  simp [submitLocation, hv, hstep, hloc, exceptBind_ok, exceptBind_error,
    exceptPure_def, exceptThrow_def]

/-- C10: a password-path session created unverified (`emailVerified =
false`) walks every later step and finalizes successfully without
`VerifyEmail` ever being called — no submission consults the flag, which
stays false on every intermediate session — and the finalized account is
nevertheless persisted with `emailVerified = true`. -/
theorem password_path_completes_unverified
    (email newId tok vtok : String) (pb : PersonalInfoBody) (bt : String)
    (sb : ShopDetailsBody) (loc : LocationStepData) (avail : String → Bool)
    (fuel now : Nat) (url : String)
    (htok : tok ≠ "")
    (hpb : personalInfoJoi false pb = true)
    (hbt : businessTypeJoi bt = true)
    (hsb : shopDetailsJoi sb = true)
    (hurl : generateUniqueShopUrlCtrl avail sb.businessName fuel = some url)
    (hloc : locationJoi loc = true) :
    ∃ s₁ s₂ s₃ user,
      (createSession none email false newId tok vtok now).emailVerified = false ∧
      submitPersonalInfo [createSession none email false newId tok vtok now]
        (some tok) pb now = .ok s₁ ∧
      s₁.emailVerified = false ∧
      submitBusinessType [s₁] (some tok) bt now = .ok s₂ ∧
      s₂.emailVerified = false ∧
      submitShopDetails [s₂] (some tok) sb avail fuel now = some (.ok s₃) ∧
      s₃.emailVerified = false ∧
      submitLocation [s₃] (some tok) loc now = .ok user ∧
      user.emailVerified = true ∧
      user.email = email := by
  have hexp0 : ¬ (createSession none email false newId tok vtok now).expiresAt < now := by
    show ¬ now + 2 * 60 * 60 * 1000 < now
    omega
  have hf0 := findByToken_singleton (createSession none email false newId tok vtok now)
    tok now rfl hexp0
  have h1 := submitPersonalInfo_ok_eq _ tok now _ pb htok hf0
    (by show ¬ (1 : Nat) < 1; omega) hpb
  have hexp1 : ¬ (nextStep (updateStep (createSession none email false newId tok vtok now)
      PERSONAL_INFO (.p2 ⟨pb.firstName, pb.lastName, pb.password⟩) now) now).expiresAt < now := by
    show ¬ now + 2 * 60 * 60 * 1000 < now
    omega
  have hf1 := findByToken_singleton _ tok now rfl hexp1
  have h2 := submitBusinessType_ok_eq _ tok now _ bt htok hf1
    (by show ¬ (3 : Nat) < 2; omega) hbt
  have hexp2 : ¬ (nextStep (updateStep (nextStep (updateStep
      (createSession none email false newId tok vtok now)
      PERSONAL_INFO (.p2 ⟨pb.firstName, pb.lastName, pb.password⟩) now) now)
      BUSINESS_TYPE (.p3 ⟨bt⟩) now) now).expiresAt < now := by
    show ¬ now + 2 * 60 * 60 * 1000 < now
    omega
  have hf2 := findByToken_singleton _ tok now rfl hexp2
  have h3 := submitShopDetails_ok_eq _ tok now _ sb avail fuel url htok hf2
    (by show ¬ (4 : Nat) < 3; omega) hsb hurl
  have hexp3 : ¬ (nextStep (updateStep (nextStep (updateStep (nextStep (updateStep
      (createSession none email false newId tok vtok now)
      PERSONAL_INFO (.p2 ⟨pb.firstName, pb.lastName, pb.password⟩) now) now)
      BUSINESS_TYPE (.p3 ⟨bt⟩) now) now)
      SHOP_DETAILS (.p4 ⟨sb.businessName, sb.businessDescription, url ++ ".celm.com"⟩) now) now).expiresAt < now := by
    show ¬ now + 2 * 60 * 60 * 1000 < now
    omega
  have hf3 := findByToken_singleton _ tok now rfl hexp3
  have h4 := submitLocation_eq _ tok now _ loc htok hf3
    (by show ¬ (5 : Nat) < 4; omega) hloc
  exact ⟨_, _, _, _, rfl, h1, rfl, h2, rfl, h3, rfl, h4, rfl, rfl⟩

/-- C10 witness: the full password-path pipeline evaluated on the worked
example, email never verified, account created verified. -/
theorem password_path_completes_unverified_witness :
    ∃ s₁ s₂ s₃ user,
      (createSession none "new@biz.com" false "sid" "sess1" "v1" 0).emailVerified = false ∧
      submitPersonalInfo [createSession none "new@biz.com" false "sid" "sess1" "v1" 0]
        (some "sess1") ⟨"Al", "Bo", some "Secr3t!1"⟩ 0 = .ok s₁ ∧
      s₁.emailVerified = false ∧
      submitBusinessType [s₁] (some "sess1") "services" 0 = .ok s₂ ∧
      s₂.emailVerified = false ∧
      submitShopDetails [s₂] (some "sess1") sbAce (fun _ => true) 1 0 = some (.ok s₃) ∧
      s₃.emailVerified = false ∧
      submitLocation [s₃] (some "sess1") ⟨"NG", "Lagos", "Ikeja", "1 Main St"⟩ 0 = .ok user ∧
      user.emailVerified = true ∧
      user.email = "new@biz.com" :=
  password_path_completes_unverified "new@biz.com" "sid" "sess1" "v1"
    ⟨"Al", "Bo", some "Secr3t!1"⟩ "services" sbAce ⟨"NG", "Lagos", "Ikeja", "1 Main St"⟩
    (fun _ => true) 1 0 "ace-repairs" (by decide) (by decide) rfl rfl rfl (by decide)
